import Mathlib

/-!
# Verification of the gemini-proxy key-rotation request-forwarding mechanism

Shallow embedding of the three server variants found in the repository
(`server.js`: a hardened structured `/identify` proxy, a transparent
`/v1*` pass-through proxy, and a minimal `/identify` proxy; plus the
unnamed variants).  Pure data flow is modelled directly; the mutable
round-robin cursor is modelled by explicit state passing; the network
(`fetch`) is modelled by passing the upstream's answer as an explicit
argument; JavaScript exceptions are modelled with `Option`/sum shapes.
-/

namespace GeminiProxy

/-! ## JSON values

Model of the JSON data manipulated by the proxy (`JSON.parse`,
`JSON.stringify`, `res.json`).  Numbers are modelled as integers, which
covers every value the proxy itself constructs or inspects. -/

inductive Json where
  | null : Json
  | bool : Bool → Json
  | num : Int → Json
  | str : String → Json
  | arr : List Json → Json
  | obj : List (String × Json) → Json
deriving Repr

/-! ## A JSON parser modelling `JSON.parse`

`JSON.parse(text)` either yields a value or throws; modelled as
`jsonParse : String → Option Json`.  Whitespace, `null`, booleans,
integer numbers, strings with single-character escapes, arrays and
objects are supported — the fragment exercised by the proxy. -/

def skipWs : List Char → List Char
  | [] => []
  | c :: cs => if c = ' ' ∨ c = '\n' ∨ c = '\t' ∨ c = '\r' then skipWs cs else c :: cs

/-- Consume the rest of a JSON string literal (after the opening quote),
returning its characters and the remaining input. -/
def parseStringRest : List Char → Option (List Char × List Char)
  | [] => none
  | '"' :: cs => some ([], cs)
  | '\\' :: e :: cs =>
      let ec := if e = 'n' then '\n' else if e = 't' then '\t' else e
      match parseStringRest cs with
      | some (s, rest) => some (ec :: s, rest)
      | none => none
  | c :: cs =>
      match parseStringRest cs with
      | some (s, rest) => some (c :: s, rest)
      | none => none

def takeDigits : List Char → (List Char × List Char)
  | [] => ([], [])
  | c :: cs =>
      if c.isDigit then
        let (ds, rest) := takeDigits cs
        (c :: ds, rest)
      else ([], c :: cs)

def digitsToNat (ds : List Char) : Nat :=
  ds.foldl (fun acc c => acc * 10 + (c.toNat - '0'.toNat)) 0

mutual

/-- Parse one JSON value; `fuel` bounds nesting depth. -/
def parseVal : Nat → List Char → Option (Json × List Char)
  | 0, _ => none
  | Nat.succ fuel, input =>
    match skipWs input with
    | [] => none
    | c :: rest =>
      if c = '"' then
        match parseStringRest rest with
        | some (s, r) => some (Json.str (String.mk s), r)
        | none => none
      else if c = '[' then
        match skipWs rest with
        | ']' :: r2 => some (Json.arr [], r2)
        | r2 =>
          match parseArrItems fuel r2 with
          | some (xs, r3) => some (Json.arr xs, r3)
          | none => none
      else if c = Char.ofNat 123 then
        match skipWs rest with
        | r2 =>
          if r2.headD ' ' = Char.ofNat 125 then some (Json.obj [], r2.tail)
          else
            match parseObjItems fuel r2 with
            | some (fs, r3) => some (Json.obj fs, r3)
            | none => none
      else if c = 'n' then
        match rest with
        | 'u' :: 'l' :: 'l' :: r2 => some (Json.null, r2)
        | _ => none
      else if c = 't' then
        match rest with
        | 'r' :: 'u' :: 'e' :: r2 => some (Json.bool true, r2)
        | _ => none
      else if c = 'f' then
        match rest with
        | 'a' :: 'l' :: 's' :: 'e' :: r2 => some (Json.bool false, r2)
        | _ => none
      else if c = '-' then
        match takeDigits rest with
        | ([], _) => none
        | (ds, r2) => some (Json.num (-(digitsToNat ds : Int)), r2)
      else if c.isDigit then
        match takeDigits (c :: rest) with
        | ([], _) => none
        | (ds, r2) => some (Json.num (digitsToNat ds : Int), r2)
      else none

/-- Parse `value (',' value)* ']'` inside an array. -/
def parseArrItems : Nat → List Char → Option (List Json × List Char)
  | 0, _ => none
  | Nat.succ fuel, input =>
    match parseVal fuel input with
    | none => none
    | some (v, r) =>
      match skipWs r with
      | ',' :: r2 =>
        match parseArrItems fuel r2 with
        | some (vs, r3) => some (v :: vs, r3)
        | none => none
      | ']' :: r2 => some ([v], r2)
      | _ => none

/-- Parse `string ':' value (',' member)* close-brace` inside an object. -/
def parseObjItems : Nat → List Char → Option (List (String × Json) × List Char)
  | 0, _ => none
  | Nat.succ fuel, input =>
    match skipWs input with
    | '"' :: r =>
      match parseStringRest r with
      | none => none
      | some (k, r2) =>
        match skipWs r2 with
        | ':' :: r3 =>
          match parseVal fuel r3 with
          | none => none
          | some (v, r4) =>
            match skipWs r4 with
            | ',' :: r5 =>
              match parseObjItems fuel r5 with
              | some (fs, r6) => some ((String.mk k, v) :: fs, r6)
              | none => none
            | c :: r5 =>
              if c = Char.ofNat 125 then some ([(String.mk k, v)], r5) else none
            | _ => none
        | _ => none
    | _ => none

end

/-- `JSON.parse`: the whole input must be one JSON value (plus whitespace). -/
def jsonParse (s : String) : Option Json :=
  match parseVal (s.data.length + 1) s.data with
  | some (v, rest) => if skipWs rest = [] then some v else none
  | none => none

/-! ## Key pool (`API_KEYS`, `keyIndex`/`rrIndex`, `getNextApiKey`/`nextKey`)

The process environment is modelled as an association list of variable
names to values; an absent variable is an absent entry, so JS
`undefined` maps to `none` under `lookupEnv`. -/

def lookupEnv (env : List (String × String)) (name : String) : Option String :=
  (env.find? (fun p => p.1 == name)).map (fun p => p.2)

/-- `String.prototype.startsWith`, modelled over the character data. -/
def strStartsWith (s p : String) : Bool := p.data.isPrefixOf s.data

/-- `String.prototype.toLowerCase`, modelled over the character data. -/
def strToLower (s : String) : String := String.mk (s.data.map Char.toLower)

/-- `String.prototype.toUpperCase`, modelled over the character data. -/
def strToUpper (s : String) : String := String.mk (s.data.map Char.toUpper)

/-- Hardened variant:
`Object.keys(process.env).filter(k => k.startsWith('GEMINI_API_KEY_')).map(k => process.env[k]).filter(Boolean)`. -/
def loadKeysScan (env : List (String × String)) : List String :=
  (((env.map Prod.fst).filter (fun k => strStartsWith k "GEMINI_API_KEY_")).map
      (fun k => (lookupEnv env k).getD "")).filter (fun v => v ≠ "")

def slotNames : List String :=
  ["GEMINI_API_KEY_1", "GEMINI_API_KEY_2", "GEMINI_API_KEY_3",
   "GEMINI_API_KEY_4", "GEMINI_API_KEY_5"]

/-- Transparent/minimal variants: the five explicit slots, then
`.filter(Boolean)` (dropping both absent variables and empty strings). -/
def loadKeysSlots (env : List (String × String)) : List String :=
  ((slotNames.map (fun n => lookupEnv env n)).filterMap id).filter (fun v => v ≠ "")

/-- The round-robin state: the immutable pool plus the mutable cursor
(`keyIndex` / `rrIndex`), modelled by explicit state passing. -/
structure ServerState where
  keys : List String
  cursor : Nat
deriving Repr, DecidableEq

/-- Startup: `if (API_KEYS.length === 0) process.exit(1)`; otherwise the
module continues to `app.listen`.  `Except.error c` is an exit with code
`c` before the listener is installed; `Except.ok` is a running server. -/
def startServer (keys : List String) : Except Nat ServerState :=
  if keys.isEmpty then Except.error 1 else Except.ok ⟨keys, 0⟩

/-- Single-key variant (`part_001`): `const API_KEY = process.env.GEMINI_API_KEY;
if (!API_KEY) process.exit(1)` (absent and empty are both falsy). -/
def startSingleKey (env : List (String × String)) : Except Nat String :=
  match lookupEnv env "GEMINI_API_KEY" with
  | none => Except.error 1
  | some k => if k = "" then Except.error 1 else Except.ok k

/-- `getNextApiKey` of the hardened variant: read `API_KEYS[keyIndex]`,
then `keyIndex = (keyIndex + 1) % API_KEYS.length`.  Returns the key and
the new cursor. -/
def getNextApiKey (keys : List String) (keyIndex : Nat) : String × Nat :=
  (keys.getD keyIndex "", (keyIndex + 1) % keys.length)

/-- `nextKey` of the transparent and minimal variants — the same code as
`getNextApiKey`, duplicated in the source. -/
def nextKey (keys : List String) (rrIndex : Nat) : String × Nat :=
  (keys.getD rrIndex "", (rrIndex + 1) % keys.length)

/-- `n` consecutive `getNextApiKey()` calls from cursor `i`: the list of
returned keys and the final cursor. -/
def runNext (keys : List String) : Nat → Nat → List String × Nat
  | 0, i => ([], i)
  | Nat.succ n, i =>
      let step := getNextApiKey keys i
      let rest := runNext keys n step.2
      (step.1 :: rest.1, rest.2)

/-! ## Transparent proxy (`handleProxy`) -/

def GEMINI_BASE : String := "https://generativelanguage.googleapis.com"

/-- An inbound HTTP request; `originalUrl` is split into `path` and the
parsed `query` parameter list, and `body` is the raw byte payload. -/
structure InboundRequest where
  method : String
  path : String
  query : List (String × String)
  headers : List (String × String)
  body : String
deriving Repr, DecidableEq

/-- Serialization of `URLSearchParams` back into the URL string. -/
def renderQuery (ps : List (String × String)) : String :=
  if ps.isEmpty then ""
  else "?" ++ String.intercalate "&" (ps.map (fun p => p.1 ++ "=" ++ p.2))

/-- `new URL(req.originalUrl, GEMINI_BASE); urlObj.searchParams.delete('key');
urlObj.toString()`. -/
def targetUrl (req : InboundRequest) : String :=
  GEMINI_BASE ++ req.path ++ renderQuery (req.query.filter (fun p => p.1 ≠ "key"))

/-- The denylist checked against the lowercased inbound header name. -/
def sensitiveHeaders : List String :=
  ["host", "content-length", "authorization", "x-goog-api-key", "cookie", "connection"]

/-- Copy every non-denylisted inbound header, then set
`headers['x-goog-api-key'] = apiKey`. -/
def outboundHeaders (inHeaders : List (String × String)) (apiKey : String) :
    List (String × String) :=
  (inHeaders.filter (fun p => !(sensitiveHeaders.contains (strToLower p.1)))) ++
    [("x-goog-api-key", apiKey)]

structure OutboundRequest where
  url : String
  method : String
  headers : List (String × String)
  body : Option String
deriving Repr, DecidableEq

/-- What a handler writes back: raw bytes (`res.send(buffer)`) or a JSON
value (`res.json(obj)`). -/
inductive ResBody where
  | raw : String → ResBody
  | json : Json → ResBody

structure ClientResponse where
  status : Nat
  contentType : Option String
  body : ResBody

/-- Outcome of the one `fetch` call: a network-level failure (the promise
rejects), or an upstream response with status, content-type and raw body. -/
inductive FetchResult where
  | networkError : String → FetchResult
  | response : Nat → Option String → String → FetchResult

def bodylessMethods : List String := ["GET", "HEAD"]

structure TransparentResult where
  outbound : OutboundRequest
  response : ClientResponse
  finalState : ServerState

/-- The transparent pass-through handler, given the upstream's behaviour
`fr` for the single outbound call it makes. -/
def handleProxy (st : ServerState) (req : InboundRequest) (fr : FetchResult) :
    TransparentResult :=
  let sel := nextKey st.keys st.cursor
  let st2 : ServerState := ⟨st.keys, sel.2⟩
  let hasBody := !(bodylessMethods.contains (strToUpper req.method))
  let outbound : OutboundRequest :=
    ⟨targetUrl req, req.method, outboundHeaders req.headers sel.1,
      if hasBody then some req.body else none⟩
  match fr with
  | FetchResult.response status ct body =>
      ⟨outbound, ⟨status, ct, ResBody.raw body⟩, st2⟩
  | FetchResult.networkError msg =>
      ⟨outbound,
        ⟨502, some "application/json",
          ResBody.json (Json.obj
            [("ok", Json.bool false),
             ("error", Json.str "PROXY_REQUEST_FAILED"),
             ("message", Json.str msg)])⟩, st2⟩

/-! ## Structured `/identify` proxy -/

def GEMINI_MODEL : String := "gemini-2.5-flash"

/-- Destructured `/identify` body `const { imageBase64, prompt } = req.body`;
each field is absent (`undefined`) or a string. -/
structure IdentifyRequest where
  imageBase64 : Option String
  prompt : Option String
deriving Repr, DecidableEq

/-- JS truthiness of an optional string field (`undefined` and `""` falsy). -/
def truthy : Option String → Bool
  | none => false
  | some s => s ≠ ""

/-- `Response.ok`: status in the inclusive range 200–299. -/
def respOk (status : Nat) : Bool := 200 ≤ status && status < 300

def geminiUrl (apiKey : String) : String :=
  GEMINI_BASE ++ "/v1beta/models/" ++ GEMINI_MODEL ++ ":generateContent?key=" ++ apiKey

/-- The structured request envelope built by the hardened variant. -/
def requestPayload (prompt imageBase64 : String) : Json :=
  Json.obj
    [("contents", Json.arr
        [Json.obj [("parts", Json.arr
          [Json.obj [("text", Json.str prompt)],
           Json.obj [("inlineData", Json.obj
             [("mimeType", Json.str "image/jpeg"),
              ("data", Json.str imageBase64)])]])]]),
     ("generationConfig", Json.obj
        [("responseMimeType", Json.str "application/json")])]

/-- The one upstream call made by an `/identify` handler. -/
structure GeminiCall where
  url : String
  apiKey : String
  payload : Json

structure HandlerResponse where
  status : Nat
  body : Json

/-- Result of one `/identify` request: the client response, the state
after the handler, and the upstream call (`none` when the upstream was
never contacted). -/
structure IdentifyResult where
  response : HandlerResponse
  finalState : ServerState
  upstreamCall : Option GeminiCall

/-- Object field access `j.k` under optional chaining. -/
def getField : Json → String → Option Json
  | Json.obj fs, k => (fs.find? (fun p => p.1 == k)).map (fun p => p.2)
  | _, _ => none

/-- Array index access `j[i]` under optional chaining. -/
def getIndex : Json → Nat → Option Json
  | Json.arr xs, i => xs.get? i
  | _, _ => none

/-- `data.candidates?.[0]?.content?.parts?.[0]?.text`. -/
def extractJsonText (data : Json) : Option Json :=
  (((((getField data "candidates").bind (fun j => getIndex j 0)).bind
      (fun j => getField j "content")).bind
      (fun j => getField j "parts")).bind
      (fun j => getIndex j 0)).bind
      (fun j => getField j "text")

/-- JS truthiness of an arbitrary JSON value. -/
def jsTruthy : Json → Bool
  | Json.null => false
  | Json.bool b => b
  | Json.num n => n ≠ 0
  | Json.str s => s ≠ ""
  | Json.arr _ => true
  | Json.obj _ => true

mutual

/-- JS string coercion `String(v)` as applied by `JSON.parse` to a
non-string argument (scalars exact; objects stringify to
`[object Object]`, arrays to their comma-joined elements). -/
def jsToString : Json → String
  | Json.null => "null"
  | Json.bool true => "true"
  | Json.bool false => "false"
  | Json.num n => toString n
  | Json.str s => s
  | Json.arr xs => String.intercalate "," (jsToStringList xs)
  | Json.obj _ => "[object Object]"

def jsToStringList : List Json → List String
  | [] => []
  | x :: xs => jsToString x :: jsToStringList xs

end

/-- The hardened `/identify` handler (`app.post('/identify')`), given the
upstream's behaviour `fr` for the single `fetch` it makes.  Being a total
function into `IdentifyResult`, every path — including the two
`try`/`catch` blocks of the source — produces an HTTP response.  The JS
exception message texts (`error.message` of a rejected `fetch` or of a
failed `geminiResponse.json()`) are carried through as given or
abstracted by a fixed representative string. -/
def identifyStep (st : ServerState) (req : IdentifyRequest) (fr : FetchResult) :
    IdentifyResult :=
  if !(truthy req.imageBase64 && truthy req.prompt) then
    ⟨⟨400, Json.obj
        [("error",
          Json.str "Request body must contain \"imageBase64\" and \"prompt\".")]⟩,
      st, none⟩
  else
    let sel := getNextApiKey st.keys st.cursor
    let st2 : ServerState := ⟨st.keys, sel.2⟩
    let call : GeminiCall :=
      ⟨geminiUrl sel.1, sel.1,
        requestPayload ((req.prompt).getD "") ((req.imageBase64).getD "")⟩
    match fr with
    | FetchResult.networkError msg =>
        ⟨⟨500, Json.obj
            [("error", Json.str "An internal server error occurred."),
             ("message", Json.str msg)]⟩, st2, some call⟩
    | FetchResult.response status _ body =>
        if !(respOk status) then
          ⟨⟨status, Json.obj
              [("error",
                Json.str ("Gemini API request failed with status " ++ toString status)),
               ("details", Json.str body)]⟩, st2, some call⟩
        else
          match jsonParse body with
          | none =>
              ⟨⟨500, Json.obj
                  [("error", Json.str "An internal server error occurred."),
                   ("message", Json.str "Unexpected end of JSON input")]⟩,
                st2, some call⟩
          | some data =>
              let blocked : IdentifyResult :=
                ⟨⟨400, Json.obj
                    [("error", Json.str "AI response was empty or blocked."),
                     ("details", data)]⟩, st2, some call⟩
              match extractJsonText data with
              | some t =>
                  if jsTruthy t then
                    match jsonParse (jsToString t) with
                    | some parsed => ⟨⟨200, parsed⟩, st2, some call⟩
                    | none =>
                        ⟨⟨500, Json.obj
                            [("error", Json.str "AI returned an invalid JSON format.")]⟩,
                          st2, some call⟩
                  else blocked
              | none => blocked

/-! ## Minimal `/identify` proxy (third variant in `server.js`) -/

def geminiUrlMinimal (apiKey : String) : String :=
  GEMINI_BASE ++ "/v1beta/models/gemini-pro-vision:generateContent?key=" ++ apiKey

def requestPayloadMinimal (imageBase64 : String) : Json :=
  Json.obj
    [("contents", Json.arr
        [Json.obj
          [("role", Json.str "user"),
           ("parts", Json.arr
             [Json.obj [("text", Json.str "Describe this image in detail:")],
              Json.obj [("inline_data", Json.obj
                [("mime_type", Json.str "image/jpeg"),
                 ("data", Json.str imageBase64)])]])]])]

/-- The minimal `/identify` handler: requires only `imageBase64`, ignores
the upstream status, parses the upstream body (`response.json()`) and
forwards the parsed envelope whole with `res.json(data)` (status 200). -/
def identifyMinimalStep (st : ServerState) (req : IdentifyRequest) (fr : FetchResult) :
    IdentifyResult :=
  if !(truthy req.imageBase64) then
    ⟨⟨400, Json.obj [("error", Json.str "No image provided")]⟩, st, none⟩
  else
    let sel := nextKey st.keys st.cursor
    let st2 : ServerState := ⟨st.keys, sel.2⟩
    let call : GeminiCall :=
      ⟨geminiUrlMinimal sel.1, sel.1, requestPayloadMinimal ((req.imageBase64).getD "")⟩
    match fr with
    | FetchResult.networkError msg =>
        ⟨⟨500, Json.obj
            [("error", Json.str "Server error"), ("message", Json.str msg)]⟩,
          st2, some call⟩
    | FetchResult.response _ _ body =>
        match jsonParse body with
        | some data => ⟨⟨200, data⟩, st2, some call⟩
        | none =>
            ⟨⟨500, Json.obj
                [("error", Json.str "Server error"),
                 ("message", Json.str "Unexpected end of JSON input")]⟩,
              st2, some call⟩

/-! ## The `@google/genai` single-key variant (`part_001`) -/

/-- Outcome of `ai.models.generateContent(...)` followed by
`response.text()`: either the SDK call throws, or it yields the embedded
text. -/
inductive SdkResult where
  | sdkError : String → SdkResult
  | text : String → SdkResult

/-- The `part_001` `/identify` handler: requires `imageBase64`; any throw
inside the `try` — an SDK failure or a `JSON.parse` failure on the
embedded text — is caught and answered with 500 `AI service error`;
otherwise the parsed result is sent with the default status 200. -/
def identifyGenAi (req : IdentifyRequest) (sdk : SdkResult) : HandlerResponse :=
  if !(truthy req.imageBase64) then
    ⟨400, Json.obj [("error", Json.str "Image is required")]⟩
  else
    match sdk with
    | SdkResult.sdkError _ => ⟨500, Json.obj [("error", Json.str "AI service error")]⟩
    | SdkResult.text t =>
        match jsonParse t with
        | some result => ⟨200, result⟩
        | none => ⟨500, Json.obj [("error", Json.str "AI service error")]⟩

/-! ## Concrete upstream stubs from the testable properties -/

/-- The embedded JSON text of the success round-trip. -/
def innerGood : String := "\x7b\"quality\":\"good\",\"identifications\":[]\x7d"

/-- Stubbed upstream HTTP body
`{candidates:[{content:{parts:[{text:"{\"quality\":\"good\",\"identifications\":[]}"}]}}]}`. -/
def stubSuccessBody : String :=
  "\x7b\"candidates\":[\x7b\"content\":\x7b\"parts\":[\x7b\"text\":\"\x7b\\\"quality\\\":\\\"good\\\",\\\"identifications\\\":[]\x7d\"\x7d]\x7d\x7d]\x7d"

/-- Stubbed upstream HTTP body whose embedded text is `not json`. -/
def stubNotJsonBody : String :=
  "\x7b\"candidates\":[\x7b\"content\":\x7b\"parts\":[\x7b\"text\":\"not json\"\x7d]\x7d\x7d]\x7d"

/-- The generation envelope `stubSuccessBody` parses to. -/
def stubEnvelope : Json :=
  Json.obj [("candidates", Json.arr
    [Json.obj [("content", Json.obj
      [("parts", Json.arr
        [Json.obj [("text", Json.str innerGood)]])])]])]

/-- The client-visible body of the success round-trip. -/
def goodIdentification : Json :=
  Json.obj [("quality", Json.str "good"), ("identifications", Json.arr [])]

/-- The generation envelope `stubNotJsonBody` parses to. -/
def stubNotJsonEnvelope : Json :=
  Json.obj [("candidates", Json.arr
    [Json.obj [("content", Json.obj
      [("parts", Json.arr
        [Json.obj [("text", Json.str "not json")]])])]])]

/-! ## Helper lemmas -/

theorem nextKey_eq_getNextApiKey (keys : List String) (i : Nat) :
    nextKey keys i = getNextApiKey keys i := rfl

theorem runNext_zero (keys : List String) (i : Nat) :
    runNext keys 0 i = ([], i) := rfl

theorem runNext_succ (keys : List String) (n i : Nat) :
    runNext keys (n + 1) i =
      ((getNextApiKey keys i).1 :: (runNext keys n (getNextApiKey keys i).2).1,
        (runNext keys n (getNextApiKey keys i).2).2) := rfl

/-- `n` calls of `getNextApiKey` starting at a cursor `i`, as long as they
stay inside one sweep of the pool, return the pool segment starting at `i`
and leave the cursor at `(i + n) % length`. -/
theorem runNext_take (keys : List String) :
    ∀ (n i : Nat), i < keys.length → i + n ≤ keys.length →
      runNext keys n i = ((keys.drop i).take n, (i + n) % keys.length) := by
  intro n
  induction n with
  | zero =>
      intro i hi _
      simp [runNext, Nat.mod_eq_of_lt hi]
  | succ n ih =>
      intro i hi hin
      have hgetD : keys.getD i "" = keys[i] := List.getD_eq_getElem keys "" hi
      have hdrop : keys.drop i = keys[i] :: keys.drop (i + 1) :=
        List.drop_eq_getElem_cons hi
      have hsel : getNextApiKey keys i = (keys[i], (i + 1) % keys.length) := by
        rw [getNextApiKey, hgetD]
      rw [runNext_succ, hsel]
      by_cases hlt : i + 1 < keys.length
      · have hmod : (i + 1) % keys.length = i + 1 := Nat.mod_eq_of_lt hlt
        have hrec := ih (i + 1) hlt (by omega)
        rw [hmod, hrec]
        have harith : i + 1 + n = i + (n + 1) := by omega
        rw [hdrop, List.take_succ_cons, harith]
      · have hlen : i + 1 = keys.length := by omega
        have hn0 : n = 0 := by omega
        subst hn0
        have hmod : (i + 1) % keys.length = 0 := by
          rw [hlen]; exact Nat.mod_self _
        rw [hmod, runNext_zero, hdrop, List.take_succ_cons, List.take_zero]

/-- Splitting a run of `m + n` calls into a run of `m` followed by `n`. -/
theorem runNext_add (keys : List String) :
    ∀ (m n i : Nat),
      runNext keys (m + n) i =
        ((runNext keys m i).1 ++ (runNext keys n (runNext keys m i).2).1,
          (runNext keys n (runNext keys m i).2).2) := by
  intro m
  induction m with
  | zero => intro n i; simp [runNext_zero]
  | succ m ih =>
      intro n i
      have h : m + 1 + n = (m + n) + 1 := by omega
      rw [h, runNext_succ, ih, runNext_succ, List.cons_append]

/-! ## Claim theorems -/

/-- C1: for every credential pool of size `N ≥ 1` loaded at startup, `N`
consecutive `next()` calls starting from the initial cursor 0 return each
credential of the pool exactly once in pool order (the output list of the
first `N` calls is the pool itself), and the `(N + 1)`-th call returns
the first credential again; `nextKey` is the same code as
`getNextApiKey`, so the final conjunct transfers the statement to it. -/
theorem roundRobinCycle (keys : List String) (h : keys ≠ []) :
    (runNext keys keys.length 0).1 = keys ∧
    (runNext keys (keys.length + 1) 0).1 = keys ++ [keys.getD 0 ""] ∧
    (∀ ks i, nextKey ks i = getNextApiKey ks i) := by
  have hlen : 0 < keys.length := List.length_pos.mpr h
  have hfull := runNext_take keys keys.length 0 hlen (by omega)
  have h1 : (runNext keys keys.length 0).1 = keys := by
    rw [hfull]
    simp
  have h2 : (runNext keys keys.length 0).2 = 0 := by
    rw [hfull]
    simp
  have htake1 : keys.take 1 = [keys.getD 0 ""] := by
    cases keys with
    | nil => cases h rfl
    | cons a t => rfl
  refine ⟨h1, ?_, fun ks i => rfl⟩
  have hone := runNext_take keys 1 0 hlen (by omega)
  rw [runNext_add keys keys.length 1 0, h1, h2, hone]
  simp [htake1]

/-- Witness for C1 at the concrete pool `["k1", "k2", "k3"]`. -/
theorem roundRobinCycle_witness :
    (runNext ["k1", "k2", "k3"] 3 0).1 = ["k1", "k2", "k3"] ∧
    (runNext ["k1", "k2", "k3"] 4 0).1 = ["k1", "k2", "k3"] ++ ["k1"] ∧
    (∀ ks i, nextKey ks i = getNextApiKey ks i) :=
  roundRobinCycle ["k1", "k2", "k3"] (by decide)

/-- C9: the rotation cursor is always an in-bounds index: the pool is
non-empty (so the initial cursor 0 is in bounds), and from any in-bounds
cursor `i`, `next()` advances the cursor by exactly one modulo the pool
length, the new cursor is again in bounds, and the indexed read
`API_KEYS[i]` is the in-bounds element; `nextKey` is the same code. -/
theorem cursorInvariant (keys : List String) (i : Nat)
    (hne : keys ≠ []) (hi : i < keys.length) :
    0 < keys.length ∧
    (getNextApiKey keys i).2 = (i + 1) % keys.length ∧
    (getNextApiKey keys i).2 < keys.length ∧
    (getNextApiKey keys i).1 = keys.get ⟨i, hi⟩ ∧
    (∀ ks j, nextKey ks j = getNextApiKey ks j) := by
  have hlen : 0 < keys.length := List.length_pos.mpr hne
  refine ⟨hlen, rfl, Nat.mod_lt _ hlen, ?_, fun ks j => rfl⟩
  simpa [getNextApiKey] using List.getD_eq_getElem keys "" hi

/-- Witness for C9 at pool `["a", "b"]`, cursor 1 (the wrap-around step). -/
theorem cursorInvariant_witness :
    0 < (["a", "b"] : List String).length ∧
    (getNextApiKey ["a", "b"] 1).2 = (1 + 1) % (["a", "b"] : List String).length ∧
    (getNextApiKey ["a", "b"] 1).2 < (["a", "b"] : List String).length ∧
    (getNextApiKey ["a", "b"] 1).1 = (["a", "b"] : List String).get ⟨1, by decide⟩ ∧
    (∀ ks j, nextKey ks j = getNextApiKey ks j) :=
  cursorInvariant ["a", "b"] 1 (by decide) (by decide)

/-- C4: if loading credentials from the environment yields zero
credentials, startup terminates with the non-zero exit code 1 before the
listener is installed (`Except.error`); if at least one credential is
loaded, startup does not exit (`Except.ok` with cursor 0).  All three
loaders are covered: the prefix scan, the five explicit slots, and the
single-key variant. -/
theorem startupPrecondition (env : List (String × String)) :
    (loadKeysScan env = [] → startServer (loadKeysScan env) = Except.error 1) ∧
    (loadKeysScan env ≠ [] →
      startServer (loadKeysScan env) = Except.ok ⟨loadKeysScan env, 0⟩) ∧
    (loadKeysSlots env = [] → startServer (loadKeysSlots env) = Except.error 1) ∧
    (loadKeysSlots env ≠ [] →
      startServer (loadKeysSlots env) = Except.ok ⟨loadKeysSlots env, 0⟩) ∧
    (lookupEnv env "GEMINI_API_KEY" = none ∨ lookupEnv env "GEMINI_API_KEY" = some "" →
      startSingleKey env = Except.error 1) ∧
    (∀ k, lookupEnv env "GEMINI_API_KEY" = some k → k ≠ "" →
      startSingleKey env = Except.ok k) ∧
    (1 : Nat) ≠ 0 := by
  refine ⟨?_, ?_, ?_, ?_, ?_, ?_, by decide⟩
  · intro h
    rw [startServer, if_pos (List.isEmpty_iff.mpr h)]
  · intro h
    rw [startServer, if_neg (by simpa [List.isEmpty_iff] using h)]
  · intro h
    rw [startServer, if_pos (List.isEmpty_iff.mpr h)]
  · intro h
    rw [startServer, if_neg (by simpa [List.isEmpty_iff] using h)]
  · intro h
    rcases h with h | h <;> simp [startSingleKey, h]
  · intro k hk hne
    rw [startSingleKey, hk]
    simp [hne]

/-- Witness for C4 at a concrete environment holding one key (startup
proceeds) and at the empty environment (startup exits with code 1). -/
theorem startupPrecondition_witness :
    startServer (loadKeysScan [("GEMINI_API_KEY_1", "k1"), ("GEMINI_API_KEY", "g")]) =
      Except.ok ⟨["k1"], 0⟩ ∧
    startServer (loadKeysScan []) = Except.error 1 ∧
    startSingleKey [("GEMINI_API_KEY_1", "k1"), ("GEMINI_API_KEY", "g")] =
      Except.ok "g" := by
  refine ⟨?_, ?_, ?_⟩
  · exact (startupPrecondition [("GEMINI_API_KEY_1", "k1"), ("GEMINI_API_KEY", "g")]).2.1
      (by decide)
  · exact (startupPrecondition []).1 rfl
  · exact (startupPrecondition [("GEMINI_API_KEY_1", "k1"), ("GEMINI_API_KEY", "g")]).2.2.2.2.2.1
      "g" (by decide) (by decide)

/-- C5: a `POST /identify` body with a missing (or empty, hence falsy)
`imageBase64` — or, in the hardened variant which requires it, a missing
`prompt` — is rejected with 400 and an error message identifying the
missing field, and the upstream is never contacted (`upstreamCall = none`).
The second conjunct states the same for the minimal variant. -/
theorem inputValidation (st : ServerState) (req : IdentifyRequest) (fr : FetchResult)
    (h : truthy req.imageBase64 = false ∨ truthy req.prompt = false) :
    ((identifyStep st req fr).response.status = 400 ∧
      (identifyStep st req fr).response.body =
        Json.obj [("error",
          Json.str "Request body must contain \"imageBase64\" and \"prompt\".")] ∧
      (identifyStep st req fr).upstreamCall = none) ∧
    (∀ st2 req2 fr2, truthy req2.imageBase64 = false →
      (identifyMinimalStep st2 req2 fr2).response.status = 400 ∧
      (identifyMinimalStep st2 req2 fr2).response.body =
        Json.obj [("error", Json.str "No image provided")] ∧
      (identifyMinimalStep st2 req2 fr2).upstreamCall = none) := by
  constructor
  · have hcond : (truthy req.imageBase64 && truthy req.prompt) = false := by
      rcases h with h | h <;> simp [h]
    simp [identifyStep, hcond]
  · intro st2 req2 fr2 h2
    simp [identifyMinimalStep, h2]

/-- Witness for C5: body carrying a prompt but no `imageBase64`. -/
theorem inputValidation_witness :
    ((identifyStep ⟨["k1"], 0⟩ ⟨none, some "what is this"⟩
        (FetchResult.response 200 none "")).response.status = 400 ∧
      (identifyStep ⟨["k1"], 0⟩ ⟨none, some "what is this"⟩
        (FetchResult.response 200 none "")).response.body =
        Json.obj [("error",
          Json.str "Request body must contain \"imageBase64\" and \"prompt\".")] ∧
      (identifyStep ⟨["k1"], 0⟩ ⟨none, some "what is this"⟩
        (FetchResult.response 200 none "")).upstreamCall = none) ∧
    (∀ st2 req2 fr2, truthy req2.imageBase64 = false →
      (identifyMinimalStep st2 req2 fr2).response.status = 400 ∧
      (identifyMinimalStep st2 req2 fr2).response.body =
        Json.obj [("error", Json.str "No image provided")] ∧
      (identifyMinimalStep st2 req2 fr2).upstreamCall = none) :=
  inputValidation ⟨["k1"], 0⟩ ⟨none, some "what is this"⟩
    (FetchResult.response 200 none "") (Or.inl rfl)

/-- C10: a `POST /identify` request rejected by validation leaves the
rotation state untouched — `next()` runs only after validation succeeds —
in both the hardened and the minimal variant. -/
theorem validationFrame (st : ServerState) (req : IdentifyRequest) (fr : FetchResult)
    (h : truthy req.imageBase64 = false ∨ truthy req.prompt = false) :
    (identifyStep st req fr).finalState = st ∧
    (∀ st2 req2 fr2, truthy req2.imageBase64 = false →
      (identifyMinimalStep st2 req2 fr2).finalState = st2) := by
  constructor
  · have hcond : (truthy req.imageBase64 && truthy req.prompt) = false := by
      rcases h with h | h <;> simp [h]
    simp [identifyStep, hcond]
  · intro st2 req2 fr2 h2
    simp [identifyMinimalStep, h2]

/-- Witness for C10: body carrying an image but an empty prompt; the
cursor stays at its pre-request value 1. -/
theorem validationFrame_witness :
    (identifyStep ⟨["k1", "k2"], 1⟩ ⟨some "aW1n", some ""⟩
      (FetchResult.response 200 none "")).finalState = ⟨["k1", "k2"], 1⟩ ∧
    (∀ st2 req2 fr2, truthy req2.imageBase64 = false →
      (identifyMinimalStep st2 req2 fr2).finalState = st2) :=
  validationFrame ⟨["k1", "k2"], 1⟩ ⟨some "aW1n", some ""⟩
    (FetchResult.response 200 none "") (Or.inr rfl)

/-- C3: for every well-formed structured `POST /identify` request (both
fields truthy), if the upstream answers a success status with the
envelope whose first candidate's first part's `text` is the JSON text
`{"quality":"good","identifications":[]}`, the proxy responds 200 with
the result of parsing that text: `{"quality":"good","identifications":[]}`. -/
theorem successRoundTrip (st : ServerState) (img p : String) (status : Nat)
    (himg : img ≠ "") (hp : p ≠ "") (hlo : 200 ≤ status) (hhi : status < 300) :
    (identifyStep st ⟨some img, some p⟩
        (FetchResult.response status none stubSuccessBody)).response.status = 200 ∧
    (identifyStep st ⟨some img, some p⟩
        (FetchResult.response status none stubSuccessBody)).response.body =
      goodIdentification := by
  have hcond : (truthy (some img) && truthy (some p)) = true := by
    simp [truthy, himg, hp]
  have hok : respOk status = true := by
    simp only [respOk, Bool.and_eq_true, decide_eq_true_eq]
    omega
  have hparse : jsonParse stubSuccessBody = some stubEnvelope := rfl
  have hext : extractJsonText stubEnvelope = some (Json.str innerGood) := rfl
  have htr : jsTruthy (Json.str innerGood) = true := rfl
  have hinner : jsonParse (jsToString (Json.str innerGood)) = some goodIdentification := rfl
  simp [identifyStep, hcond, hok, hparse, hext, htr, hinner]

/-- Witness for C3 at a concrete request and the stubbed upstream. -/
theorem successRoundTrip_witness :
    (identifyStep ⟨["k1"], 0⟩ ⟨some "aW1n", some "identify"⟩
        (FetchResult.response 200 none stubSuccessBody)).response.status = 200 ∧
    (identifyStep ⟨["k1"], 0⟩ ⟨some "aW1n", some "identify"⟩
        (FetchResult.response 200 none stubSuccessBody)).response.body =
      goodIdentification :=
  successRoundTrip ⟨["k1"], 0⟩ "aW1n" "identify" 200
    (by decide) (by decide) (by decide) (by decide)

/-- C6: when the upstream answers a success status but the embedded
first-candidate text is `not json` (not valid JSON), the hardened handler
responds 500 with the error `AI returned an invalid JSON format.`; being a
total function, the handler returns this response rather than throwing.
The `part_001` variant catches the same parse failure and responds 500
with `AI service error`. -/
theorem malformedJsonPropagation (st : ServerState) (img p : String) (status : Nat)
    (himg : img ≠ "") (hp : p ≠ "") (hlo : 200 ≤ status) (hhi : status < 300) :
    ((identifyStep st ⟨some img, some p⟩
        (FetchResult.response status none stubNotJsonBody)).response.status = 500 ∧
      (identifyStep st ⟨some img, some p⟩
        (FetchResult.response status none stubNotJsonBody)).response.body =
        Json.obj [("error", Json.str "AI returned an invalid JSON format.")]) ∧
    identifyGenAi ⟨some img, some p⟩ (SdkResult.text "not json") =
      ⟨500, Json.obj [("error", Json.str "AI service error")]⟩ := by
  have hcond : (truthy (some img) && truthy (some p)) = true := by
    simp [truthy, himg, hp]
  have himgt : truthy (some img) = true := by simp [truthy, himg]
  have hok : respOk status = true := by
    simp only [respOk, Bool.and_eq_true, decide_eq_true_eq]
    omega
  have hparse : jsonParse stubNotJsonBody = some stubNotJsonEnvelope := rfl
  have hext : extractJsonText stubNotJsonEnvelope = some (Json.str "not json") := rfl
  have htr : jsTruthy (Json.str "not json") = true := rfl
  have hinner : jsonParse (jsToString (Json.str "not json")) = none := rfl
  have hnj : jsonParse "not json" = none := rfl
  constructor
  · simp [identifyStep, hcond, hok, hparse, hext, htr, hinner]
  · simp [identifyGenAi, himgt, hnj]

/-- Witness for C6 at a concrete request and the stubbed upstream. -/
theorem malformedJsonPropagation_witness :
    ((identifyStep ⟨["k1"], 0⟩ ⟨some "aW1n", some "identify this"⟩
        (FetchResult.response 200 none stubNotJsonBody)).response.status = 500 ∧
      (identifyStep ⟨["k1"], 0⟩ ⟨some "aW1n", some "identify this"⟩
        (FetchResult.response 200 none stubNotJsonBody)).response.body =
        Json.obj [("error", Json.str "AI returned an invalid JSON format.")]) ∧
    identifyGenAi ⟨some "aW1n", some "identify this"⟩ (SdkResult.text "not json") =
      ⟨500, Json.obj [("error", Json.str "AI service error")]⟩ :=
  malformedJsonPropagation ⟨["k1"], 0⟩ "aW1n" "identify this" 200
    (by decide) (by decide) (by decide) (by decide)

/-- C2: for every transparent-mode request to `/v1/*` or `/v1beta/*` and
every upstream reply, the outbound URL is the fixed upstream base plus
the inbound path with every client-supplied `key` query parameter
removed, the outbound request carries the pool's credential in its
`x-goog-api-key` header, and the client-visible response carries the
upstream's status code, identical body bytes, and its content-type. -/
theorem transparentPassThrough (st : ServerState) (req : InboundRequest)
    (status : Nat) (ct : Option String) (body : String)
    (_hpath : strStartsWith req.path "/v1/" = true ∨
              strStartsWith req.path "/v1beta/" = true) :
    (handleProxy st req (FetchResult.response status ct body)).outbound.url =
      GEMINI_BASE ++ req.path ++
        renderQuery (req.query.filter (fun q => q.1 ≠ "key")) ∧
    ("x-goog-api-key", (nextKey st.keys st.cursor).1) ∈
      (handleProxy st req (FetchResult.response status ct body)).outbound.headers ∧
    (handleProxy st req (FetchResult.response status ct body)).response.status = status ∧
    (handleProxy st req (FetchResult.response status ct body)).response.body =
      ResBody.raw body ∧
    (handleProxy st req (FetchResult.response status ct body)).response.contentType = ct := by
  refine ⟨rfl, ?_, rfl, rfl, rfl⟩
  simp [handleProxy, outboundHeaders]

/-- Witness for C2 at the spec's concrete instance: `GET /v1beta/models`
with a client `key` query parameter, stub upstream 201 `{"ok":true}`. -/
theorem transparentPassThrough_witness :
    (handleProxy ⟨["srv-key"], 0⟩
        ⟨"GET", "/v1beta/models", [("key", "client-key")], [("accept", "*/*")], ""⟩
        (FetchResult.response 201 (some "application/json")
          "\x7b\"ok\":true\x7d")).outbound.url =
      "https://generativelanguage.googleapis.com/v1beta/models" ∧
    ("x-goog-api-key", "srv-key") ∈
      (handleProxy ⟨["srv-key"], 0⟩
        ⟨"GET", "/v1beta/models", [("key", "client-key")], [("accept", "*/*")], ""⟩
        (FetchResult.response 201 (some "application/json")
          "\x7b\"ok\":true\x7d")).outbound.headers ∧
    (handleProxy ⟨["srv-key"], 0⟩
        ⟨"GET", "/v1beta/models", [("key", "client-key")], [("accept", "*/*")], ""⟩
        (FetchResult.response 201 (some "application/json")
          "\x7b\"ok\":true\x7d")).response.status = 201 ∧
    (handleProxy ⟨["srv-key"], 0⟩
        ⟨"GET", "/v1beta/models", [("key", "client-key")], [("accept", "*/*")], ""⟩
        (FetchResult.response 201 (some "application/json")
          "\x7b\"ok\":true\x7d")).response.body = ResBody.raw "\x7b\"ok\":true\x7d" ∧
    (handleProxy ⟨["srv-key"], 0⟩
        ⟨"GET", "/v1beta/models", [("key", "client-key")], [("accept", "*/*")], ""⟩
        (FetchResult.response 201 (some "application/json")
          "\x7b\"ok\":true\x7d")).response.contentType = some "application/json" :=
  transparentPassThrough ⟨["srv-key"], 0⟩
    ⟨"GET", "/v1beta/models", [("key", "client-key")], [("accept", "*/*")], ""⟩
    201 (some "application/json") "\x7b\"ok\":true\x7d" (Or.inr (by decide))

/-- C7: in transparent mode no outbound header is named (after
lowercasing) `authorization`, `cookie`, `host`, `content-length` or
`connection`; every outbound header named `x-goog-api-key` carries the
credential returned by the pool's `next()` for this request — so an
inbound credential value never survives — and that header is present.
Consequently two inbound requests that differ only in stripped headers
(equal method, path, query, body, and equal non-denylisted header lists)
produce identical outbound requests. -/
theorem sensitiveHeaderStripping (st : ServerState) (req req2 : InboundRequest)
    (fr : FetchResult)
    (hm : req2.method = req.method) (hp : req2.path = req.path)
    (hq : req2.query = req.query) (hb : req2.body = req.body)
    (hh : req2.headers.filter (fun q => !(sensitiveHeaders.contains (strToLower q.1))) =
          req.headers.filter (fun q => !(sensitiveHeaders.contains (strToLower q.1)))) :
    (∀ q ∈ (handleProxy st req fr).outbound.headers,
        strToLower q.1 ≠ "authorization" ∧ strToLower q.1 ≠ "cookie" ∧
        strToLower q.1 ≠ "host" ∧ strToLower q.1 ≠ "content-length" ∧
        strToLower q.1 ≠ "connection" ∧
        (strToLower q.1 = "x-goog-api-key" → q.2 = (nextKey st.keys st.cursor).1)) ∧
    ("x-goog-api-key", (nextKey st.keys st.cursor).1) ∈
      (handleProxy st req fr).outbound.headers ∧
    (handleProxy st req2 fr).outbound = (handleProxy st req fr).outbound := by
  have houth : (handleProxy st req fr).outbound.headers =
      outboundHeaders req.headers (nextKey st.keys st.cursor).1 := by
    cases fr <;> rfl
  refine ⟨?_, ?_, ?_⟩
  · intro q hmem
    rw [houth, outboundHeaders] at hmem
    rcases List.mem_append.mp hmem with hfil | happ
    · have hc := (List.mem_filter.mp hfil).2
      have hnotmem : strToLower q.1 ∉ sensitiveHeaders := by
        simpa using hc
      simp only [sensitiveHeaders, List.mem_cons, List.mem_singleton,
        List.not_mem_nil] at hnotmem
      push_neg at hnotmem
      refine ⟨hnotmem.2.2.1, hnotmem.2.2.2.2.1, hnotmem.1, hnotmem.2.1,
        hnotmem.2.2.2.2.2.1, ?_⟩
      intro hx
      exact absurd hx hnotmem.2.2.2.1
    · have hqeq : q = ("x-goog-api-key", (nextKey st.keys st.cursor).1) := by
        simpa using happ
      have h1 : q.1 = "x-goog-api-key" := by rw [hqeq]
      have h2 : q.2 = (nextKey st.keys st.cursor).1 := by rw [hqeq]
      rw [h1]
      exact ⟨by decide, by decide, by decide, by decide, by decide, fun _ => h2⟩
  · rw [houth, outboundHeaders]
    exact List.mem_append.mpr (Or.inr (List.mem_singleton.mpr rfl))
  · cases fr <;>
      simp only [handleProxy, targetUrl, outboundHeaders, hm, hp, hq, hb, hh]

/-- Witness for C7: an inbound request carrying `authorization`, `cookie`
and a client `x-goog-api-key`, and its scrubbed twin. -/
theorem sensitiveHeaderStripping_witness :
    (∀ q ∈ (handleProxy ⟨["pool-key"], 0⟩
        ⟨"POST", "/v1beta/models/m:generateContent", [],
          [("authorization", "Bearer tok"), ("accept", "*/*"),
           ("cookie", "sid=1"), ("x-goog-api-key", "client-key")], "b"⟩
        (FetchResult.response 200 none "ok")).outbound.headers,
        strToLower q.1 ≠ "authorization" ∧ strToLower q.1 ≠ "cookie" ∧
        strToLower q.1 ≠ "host" ∧ strToLower q.1 ≠ "content-length" ∧
        strToLower q.1 ≠ "connection" ∧
        (strToLower q.1 = "x-goog-api-key" → q.2 = "pool-key")) ∧
    ("x-goog-api-key", "pool-key") ∈
      (handleProxy ⟨["pool-key"], 0⟩
        ⟨"POST", "/v1beta/models/m:generateContent", [],
          [("authorization", "Bearer tok"), ("accept", "*/*"),
           ("cookie", "sid=1"), ("x-goog-api-key", "client-key")], "b"⟩
        (FetchResult.response 200 none "ok")).outbound.headers ∧
    (handleProxy ⟨["pool-key"], 0⟩
        ⟨"POST", "/v1beta/models/m:generateContent", [], [("accept", "*/*")], "b"⟩
        (FetchResult.response 200 none "ok")).outbound =
      (handleProxy ⟨["pool-key"], 0⟩
        ⟨"POST", "/v1beta/models/m:generateContent", [],
          [("authorization", "Bearer tok"), ("accept", "*/*"),
           ("cookie", "sid=1"), ("x-goog-api-key", "client-key")], "b"⟩
        (FetchResult.response 200 none "ok")).outbound :=
  sensitiveHeaderStripping ⟨["pool-key"], 0⟩
    ⟨"POST", "/v1beta/models/m:generateContent", [],
      [("authorization", "Bearer tok"), ("accept", "*/*"),
       ("cookie", "sid=1"), ("x-goog-api-key", "client-key")], "b"⟩
    ⟨"POST", "/v1beta/models/m:generateContent", [], [("accept", "*/*")], "b"⟩
    (FetchResult.response 200 none "ok")
    rfl rfl rfl rfl (by decide)

/-- C8 counterexample: in transparent mode a non-success upstream HTTP
status is NOT mapped to a 502-class gateway error — `handleProxy` relays
the upstream status verbatim.  Concretely, a 404 upstream reply to
`GET /v1beta/models` reaches the client as 404 (not 502, not any 5xx). -/
theorem upstreamFailureClaimCounterexample :
    respOk 404 = false ∧
    (handleProxy ⟨["k1"], 0⟩ ⟨"GET", "/v1beta/models", [], [], ""⟩
        (FetchResult.response 404 none "not found")).response.status = 404 ∧
    (handleProxy ⟨["k1"], 0⟩ ⟨"GET", "/v1beta/models", [], [], ""⟩
        (FetchResult.response 404 none "not found")).response.status ≠ 502 ∧
    ¬(500 ≤ (handleProxy ⟨["k1"], 0⟩ ⟨"GET", "/v1beta/models", [], [], ""⟩
        (FetchResult.response 404 none "not found")).response.status) :=
  ⟨rfl, rfl, by decide, by decide⟩

/-- C8 (amended): on upstream failure, the structured handler forwards a
non-success upstream HTTP status to the client together with a diagnostic
`details` payload; the transparent handler maps a network failure to a
502 gateway error with a diagnostic JSON body, while it relays any
upstream HTTP response — success or failure — verbatim with the
upstream's own status. -/
theorem upstreamFailureHandling (st : ServerState) (req : IdentifyRequest)
    (treq : InboundRequest) (msg body : String) (status : Nat) (ct : Option String)
    (himg : truthy req.imageBase64 = true) (hpr : truthy req.prompt = true)
    (hfail : respOk status = false) :
    ((identifyStep st req (FetchResult.response status ct body)).response.status = status ∧
      (identifyStep st req (FetchResult.response status ct body)).response.body =
        Json.obj
          [("error",
            Json.str ("Gemini API request failed with status " ++ toString status)),
           ("details", Json.str body)]) ∧
    ((handleProxy st treq (FetchResult.networkError msg)).response.status = 502 ∧
      (handleProxy st treq (FetchResult.networkError msg)).response.body =
        ResBody.json (Json.obj
          [("ok", Json.bool false),
           ("error", Json.str "PROXY_REQUEST_FAILED"),
           ("message", Json.str msg)])) ∧
    (∀ s2 c2 b2,
      (handleProxy st treq (FetchResult.response s2 c2 b2)).response.status = s2 ∧
      (handleProxy st treq (FetchResult.response s2 c2 b2)).response.body =
        ResBody.raw b2) := by
  have hcond : (truthy req.imageBase64 && truthy req.prompt) = true := by
    simp [himg, hpr]
  refine ⟨?_, ⟨rfl, rfl⟩, fun s2 c2 b2 => ⟨rfl, rfl⟩⟩
  simp [identifyStep, hcond, hfail]

/-- Witness for the amended C8: upstream 429 against the structured
handler; a refused connection and a relayed 404 against the transparent
handler. -/
theorem upstreamFailureHandling_witness :
    ((identifyStep ⟨["k1"], 0⟩ ⟨some "aW1n", some "find"⟩
        (FetchResult.response 429 none "quota exceeded")).response.status = 429 ∧
      (identifyStep ⟨["k1"], 0⟩ ⟨some "aW1n", some "find"⟩
        (FetchResult.response 429 none "quota exceeded")).response.body =
        Json.obj
          [("error", Json.str ("Gemini API request failed with status " ++ toString 429)),
           ("details", Json.str "quota exceeded")]) ∧
    ((handleProxy ⟨["k1"], 0⟩ ⟨"GET", "/v1/models", [], [], ""⟩
        (FetchResult.networkError "fetch failed")).response.status = 502 ∧
      (handleProxy ⟨["k1"], 0⟩ ⟨"GET", "/v1/models", [], [], ""⟩
        (FetchResult.networkError "fetch failed")).response.body =
        ResBody.json (Json.obj
          [("ok", Json.bool false),
           ("error", Json.str "PROXY_REQUEST_FAILED"),
           ("message", Json.str "fetch failed")])) ∧
    (∀ s2 c2 b2,
      (handleProxy ⟨["k1"], 0⟩ ⟨"GET", "/v1/models", [], [], ""⟩
        (FetchResult.response s2 c2 b2)).response.status = s2 ∧
      (handleProxy ⟨["k1"], 0⟩ ⟨"GET", "/v1/models", [], [], ""⟩
        (FetchResult.response s2 c2 b2)).response.body = ResBody.raw b2) :=
  upstreamFailureHandling ⟨["k1"], 0⟩ ⟨some "aW1n", some "find"⟩
    ⟨"GET", "/v1/models", [], [], ""⟩ "fetch failed" "quota exceeded" 429 none
    (by decide) (by decide) (by decide)

end GeminiProxy
